import Mathlib

/-!
Verification of the milano-agent ReAct workflow core.

This development shallowly embeds the agentic control loop of the repository:

* `src/agent/domain/agents/react_agent.py` — `StockReActAgent.parse_tool_usage`,
  `StockReActAgent.format_tool_result`;
* `src/agent/domain/tools/base.py` — `CustomBaseTool._arun`;
* `src/agent/domain/entities/context.py` — `AgentState`, `ToolResult`;
* `src/agent/infra/agents/langgraph_workflow.py` — the four workflow nodes,
  `_should_continue`, `_execute_tool_safely` and `run`.

Python strings are embedded as `List Char`; Python/JSON values as the `Json`
inductive.  External collaborators (the `json` standard library, `str()`
stringification, the two claim-irrelevant `re.sub` cleanups, the chat
providers and the concrete tools) are abstracted as parameters, so every
theorem quantifies over all of their behaviours.
-/

/-- Embedded Python string: a list of characters. -/
abbrev Str := List Char

/-- Turn a Lean string literal into an embedded Python string. -/
def str (s : String) : Str := s.data

/-- Python whitespace for `str.strip` / `\s` (ASCII range, as used here). -/
def isPySpace (c : Char) : Bool :=
  c = ' ' || c = '\t' || c = '\n' || c = '\r' || c = '\x0b' || c = '\x0c'

/-- Python `str.strip()`: drop leading and trailing whitespace. -/
def pyStrip (s : Str) : Str :=
  ((s.dropWhile isPySpace).reverse.dropWhile isPySpace).reverse

/-- Split `hay` at the leftmost occurrence of `needle`, returning the part
before the occurrence and the part after it (the occurrence removed).
`none` when `needle` does not occur.  This is the model of leftmost regex /
`str.find` searching used by the source. -/
def splitOnFirst (needle : Str) (hay : Str) : Option (Str × Str) :=
  if needle.isPrefixOf hay then some ([], hay.drop needle.length)
  else
    match hay with
    | [] => none
    | c :: rest => (splitOnFirst needle rest).map (fun p => (c :: p.1, p.2))

/-- Model of Python `needle in hay` on strings. -/
def containsSubstr (needle hay : Str) : Bool :=
  (splitOnFirst needle hay).isSome

/-- Auxiliary for `str.split()`: accumulates the current word (reversed). -/
def splitWsAux : Str → Str → List Str
  | cur, [] => if cur = [] then [] else [cur.reverse]
  | cur, c :: rest =>
    if isPySpace c then
      if cur = [] then splitWsAux [] rest else cur.reverse :: splitWsAux [] rest
    else splitWsAux (c :: cur) rest

/-- Python `s.split()` (split on whitespace runs, no empty items). -/
def pySplitWs (s : Str) : List Str := splitWsAux [] s

/-- Python `" ".join(s.split())`: collapse all whitespace runs to one space. -/
def wsNormalize (s : Str) : Str :=
  List.intercalate (str " ") (pySplitWs s)

/-- Embedded JSON / Python value, as produced by `json.loads`.  Numbers are
embedded as integers; no claim depends on numeric payloads. -/
inductive Json where
  | null : Json
  | bool (b : Bool) : Json
  | num (n : Int) : Json
  | str (s : Str) : Json
  | arr (elems : List Json) : Json
  | obj (fields : List (Str × Json)) : Json

/-- A Python dict with string keys, in insertion order (no duplicate keys in
any dict the embedded code constructs). -/
abbrev PyDict := List (Str × Json)

/-- Python `d.get(k, default)`. -/
def dictGetD (d : PyDict) (k : Str) (default : Json) : Json :=
  (List.lookup k d).getD default

/-- Python `value == "lit"` for a JSON value against a string literal. -/
def Json.eqStr (j : Json) (s : Str) : Bool :=
  match j with
  | .str t => t == s
  | _ => false

/-- Python truthiness of an optional string field (`None` and `""` are falsy). -/
def truthy : Option Str → Bool
  | none => false
  | some s => s ≠ []

/-- Python truthiness of a JSON value. -/
def Json.pyTruthy : Json → Bool
  | .null => false
  | .bool b => b
  | .num n => n ≠ 0
  | .str s => s ≠ []
  | .arr xs => !xs.isEmpty
  | .obj fs => !fs.isEmpty

/-- Outcome of a Python call that may raise: a value or an exception whose
`str(e)` is the carried message. -/
inductive PyOutcome (α : Type) where
  | ok (a : α) : PyOutcome α
  | exn (msg : Str) : PyOutcome α
deriving DecidableEq

/-! ### Length lemmas for leftmost search, and the fenced-block extractor -/

theorem isPrefixOf_length_le : ∀ (n h : Str), n.isPrefixOf h = true → n.length ≤ h.length
  | [], _, _ => Nat.zero_le _
  | _ :: _, [], hp => by simp [List.isPrefixOf] at hp
  | a :: as, b :: bs, hp => by
    simp only [List.isPrefixOf, Bool.and_eq_true] at hp
    exact Nat.succ_le_succ (isPrefixOf_length_le as bs hp.2)

theorem splitOnFirst_snd_lt (needle : Str) (hn : needle ≠ []) :
    ∀ (hay : Str) (pre post : Str),
      splitOnFirst needle hay = some (pre, post) → post.length < hay.length := by
  intro hay
  induction hay with
  | nil =>
    intro pre post h
    rw [splitOnFirst] at h
    split at h
    · next hp =>
      cases needle with
      | nil => exact absurd rfl hn
      | cons a as => simp [List.isPrefixOf] at hp
    · exact absurd h (by simp)
  | cons c rest ih =>
    intro pre post h
    rw [splitOnFirst] at h
    split at h
    · next hp =>
      have hlen := isPrefixOf_length_le needle (c :: rest) hp
      have hpos : 0 < needle.length := by
        cases needle with
        | nil => exact absurd rfl hn
        | cons a as => simp
      injection h with h'
      have h2 : post = (c :: rest).drop needle.length := (Prod.mk.injEq _ _ _ _ ▸ h').2.symm
      subst h2
      simp only [List.length_drop]
      omega
    · cases hrec : splitOnFirst needle rest with
      | none => rw [hrec] at h; exact absurd h (by simp)
      | some p =>
        rw [hrec] at h
        obtain ⟨p1, p2⟩ := p
        simp only [Option.map] at h
        cases h
        exact Nat.lt_trans (ih p1 _ hrec) (by simp)

/-- Model of `re.search(r"```json\n(.*?)\n```", message, re.DOTALL)` in
`StockReActAgent.parse_tool_usage`: the match starts at the leftmost
occurrence of the opening fence that is followed (anywhere later) by a
closing fence; the lazy group runs up to the first closing fence after that
opening.  When an opening fence has no closing fence after it, the engine
moves on to the next opening fence. -/
def extractJsonBlockAux : Nat → Str → Option Str
  | 0, _ => none
  | fuel + 1, message =>
    match splitOnFirst (str "```json\n") message with
    | none => none
    | some (_, rest) =>
      match splitOnFirst (str "\n```") rest with
      | some (content, _) => some content
      | none => extractJsonBlockAux fuel rest

/-- The fuel exceeds the recursion depth (each step moves to a strictly
shorter suffix), so its exact value is irrelevant. -/
theorem extractJsonBlockAux_fuel :
    ∀ (fuel : Nat), ∀ (message : Str), ∀ (fuel2 : Nat),
      message.length < fuel → message.length < fuel2 →
      extractJsonBlockAux fuel message = extractJsonBlockAux fuel2 message := by
  intro fuel
  induction fuel with
  | zero => intro message fuel2 h1; omega
  | succ f ih =>
    intro message fuel2 h1 h2
    cases fuel2 with
    | zero => omega
    | succ g =>
      rw [extractJsonBlockAux, extractJsonBlockAux]
      cases hs : splitOnFirst (str "```json\n") message with
      | none => rfl
      | some p =>
        obtain ⟨pre, rest⟩ := p
        dsimp only
        cases splitOnFirst (str "\n```") rest with
        | some q => rfl
        | none =>
          dsimp only
          have hlt := splitOnFirst_snd_lt (str "```json\n") (by decide) message pre rest hs
          exact ih rest g (by omega) (by omega)

def extractJsonBlock (message : Str) : Option Str :=
  extractJsonBlockAux (message.length + 1) message

/-! ### The embedded Python library surface -/

/-- Abstract behaviour of the external Python runtime pieces the core calls
into.  All theorems below quantify over any such behaviour. -/
structure PyLib where
  /-- `json.loads`; `.error m` models a raised `json.JSONDecodeError` with
  message `m`. -/
  loads : Str → Except Str Json
  /-- `json.dumps(·, ensure_ascii=False)`. -/
  dumps : Json → Str
  /-- Python `str()` applied to a non-string value (used by f-string
  interpolation of structured payloads). -/
  pyStr : Json → Str
  /-- `re.sub(r"^```json\s*|\s*```$", "", ·, flags=re.MULTILINE)` used by the
  reflection node to peel fence markers before parsing. -/
  reSubReflection : Str → Str
  /-- `re.sub(r"^```.*?\n|\n```$", "", ·, flags=re.MULTILINE)` used by
  `_generate_final_answer` to peel fence markers from the synthesized text. -/
  reSubFinal : Str → Str

/-- f-string interpolation `f"{v}"`: a string renders as itself, anything
else through `str()`. -/
def fstr (J : PyLib) : Json → Str
  | .str s => s
  | j => J.pyStr j

/-- Model of `re.search(r"\*\*FINAL ANSWER\*\*:\s*(.*?)(?=\n|$)", content,
re.DOTALL)` followed by `.group(1).strip()` in `ReActWorkflow._reasoning_node`:
after the leftmost `**FINAL ANSWER**:`, greedy `\s*` skips whitespace
(newlines included), then the lazy group stops at the next newline or the end
of the string, and the result is stripped. -/
def extractFinalAnswer (content : Str) : Option Str :=
  (splitOnFirst (str "**FINAL ANSWER**:") content).map fun p =>
    pyStrip ((p.2.dropWhile isPySpace).takeWhile (fun c => !(c == '\n')))

/-! ### StockReActAgent.parse_tool_usage (src/agent/domain/agents/react_agent.py) -/

/-- The defensive step `tool_name = tool_name[0] if tool_name else None`
applied when the parsed `action` is a sequence. -/
def resolveAction : Json → Option Json
  | .arr xs => xs.head?
  | j => some j

/-- `StockReActAgent.parse_tool_usage`.  `registered` is `self.tools.keys()`.
Returns `none` for the `(None, None)` outcome, and the `(tool_name,
json.dumps(input))` pair otherwise.  Note the branch on a message without a
JSON block returns `(None, None)` whether or not the text contains
`FINAL ANSWER` (the two cases differ only in logging). -/
def parse_tool_usage (J : PyLib) (registered : List Str) (message : Str) :
    Option (Str × Str) :=
  match extractJsonBlock message with
  | none => none
  | some block =>
    match J.loads block with
    | .error _ => none
    | .ok actionData =>
      match actionData with
      | .obj fields =>
        if (List.lookup (str "action") fields).isSome
            && (List.lookup (str "input") fields).isSome then
          match resolveAction (dictGetD fields (str "action") .null) with
          | some (.str tool_name) =>
            if !tool_name.isEmpty && registered.contains tool_name then
              some (tool_name, J.dumps (dictGetD fields (str "input") .null))
            else none
          | _ => none
        else none
      | _ => none

/-! ### StockReActAgent.format_tool_result (src/agent/domain/agents/react_agent.py) -/

/-- The `except Exception` fallback inside `format_tool_result`, reached when
a payload lacks the shape a success branch indexes into (e.g. `data.get` on a
non-dict raises `AttributeError`).  The embedded exception text abstracts
CPython's message as `str()` of the offending payload; no claim depends on
this text. -/
def formatExnText (J : PyLib) (tool_name : Str) (data : Json) : Str :=
  str "Error formatting " ++ tool_name ++ str " result: " ++ J.pyStr data

/-- One line of the `tavily_search` rendering:
`f"Title: {r['title']}. Content: {r['content']}. URL: {s['url']}"`.
`none` models the `KeyError`/`TypeError` raised on a wrongly-shaped element. -/
def tavilyLine (J : PyLib) (rs : Json × Json) : Option Str :=
  match rs with
  | (.obj ro, .obj so) =>
    match List.lookup (str "title") ro, List.lookup (str "content") ro,
        List.lookup (str "url") so with
    | some t, some c, some u =>
      some (str "Title: " ++ fstr J t ++ str ". Content: " ++ fstr J c
        ++ str ". URL: " ++ fstr J u)
    | _, _, _ => none
  | _ => none

/-- `StockReActAgent.format_tool_result`.  A missing `status` key defaults to
`"error"`; a non-string or non-`"error"` status selects the success
rendering; the error rendering is
`f"Tool {tool_name} failed: {tool_result.get('error', 'Unknown error')}"`. -/
def format_tool_result (J : PyLib) (tool_name : Str) (tool_result : PyDict) : Str :=
  if (dictGetD tool_result (str "status") (.str (str "error"))).eqStr (str "error") then
    str "Tool " ++ tool_name ++ str " failed: "
      ++ fstr J (dictGetD tool_result (str "error") (.str (str "Unknown error")))
  else
    let data := dictGetD tool_result (str "data") (.obj [])
    if tool_name == str "stock_price" then
      str "Stock price data: " ++ J.dumps data
    else if tool_name == str "rag_knowledge" then
      match data with
      | .obj d =>
        str "Knowledge context: " ++ fstr J (dictGetD d (str "knowledge_context") (.str []))
          ++ str " \nSources: " ++ fstr J (dictGetD d (str "sources") (.arr []))
      | _ => formatExnText J tool_name data
    else if tool_name == str "tavily_search" then
      match data with
      | .obj d =>
        match dictGetD d (str "search_results") (.arr []),
            dictGetD d (str "sources") (.arr []) with
        | .arr results, .arr sources =>
          match (results.zip sources).mapM (tavilyLine J) with
          | some lines => str "Search results: " ++ List.intercalate (str "\n") lines
          | none => formatExnText J tool_name data
        | _, _ => formatExnText J tool_name data
      | _ => formatExnText J tool_name data
    else if tool_name == str "fundamental_analysis"
        || tool_name == str "industry_analysis"
        || tool_name == str "peers_comparison" then
      str "Analysis data: " ++ J.dumps data
    else if tool_name == str "chat_llm" then
      match data with
      | .obj d => str "LLM response: " ++ fstr J (dictGetD d (str "response") (.str []))
      | _ => formatExnText J tool_name data
    else fstr J data

/-! ### ToolResult, CustomBaseTool._arun (context.py, tools/base.py) -/

/-- `ToolResult` (src/agent/domain/entities/context.py): status is declared
as `'success'` or `'error'`, `data` is an opaque payload, `metadata` an
execution-context dict. -/
structure ToolResult where
  status : Str
  data : Json
  metadata : PyDict

/-- `ToolResult.model_dump()`. -/
def ToolResult.model_dump (r : ToolResult) : PyDict :=
  [(str "status", .str r.status), (str "data", r.data), (str "metadata", .obj r.metadata)]

/-- `ToolResult(**d)` — pydantic construction from a dict.  `none` models a
raised `ValidationError`.  Extra keys are ignored (pydantic default); `data`
defaults to `None` and `metadata` to `{}`. -/
def ToolResult.ofDict (d : PyDict) : Option ToolResult :=
  match List.lookup (str "status") d with
  | some (.str s) =>
    match List.lookup (str "metadata") d with
    | some (.obj md) => some ⟨s, dictGetD d (str "data") .null, md⟩
    | none => some ⟨s, dictGetD d (str "data") .null, []⟩
    | some _ => none
  | _ => none

/-- A concrete tool: its `name` attribute, the abstract behaviour of its
`_execute_impl` (a returned payload, or a raised exception), and the measured
wall-clock duration (claim-irrelevant; embedded as an integer). -/
structure Tool where
  name : Str
  execute_impl : Json → PyOutcome Json
  execTime : Int

/-- `ToolState(...).model_dump()` as built inside `_arun`.  (On the fault
path the source also passes `error=str(e)`, but `ToolState` declares no such
field and pydantic silently ignores extra keyword arguments by default, so
the dump carries no error key.) -/
def toolStateDump (t : Tool) : PyDict :=
  [(str "tool_name", .str t.name), (str "execution_time", .num t.execTime),
   (str "context", .obj [(str "market", .str (str "VN"))])]

/-- `CustomBaseTool._arun` (src/agent/domain/tools/base.py): wraps
`_execute_impl`, converting any raised fault into a `status="error"` result
with empty `data`; never raises. -/
def Tool.arun (t : Tool) (input : Json) : ToolResult :=
  match t.execute_impl input with
  | .ok resultData => ⟨str "success", resultData, toolStateDump t⟩
  | .exn _ => ⟨str "error", .obj [], toolStateDump t⟩

/-! ### ReActWorkflow._execute_tool_safely (langgraph_workflow.py) -/

/-- The keys of `ReActWorkflow.TOOL_INPUT_MODELS`. -/
def TOOL_INPUT_MODELS : List Str :=
  [str "chat_llm", str "fundamental_analysis", str "industry_analysis",
   str "peers_comparison", str "rag_knowledge", str "stock_price",
   str "tavily_search"]

/-- Execution context for the workflow: the embedded Python library
behaviour, the tool registry `self.tools` (an insertion-ordered dict shared
between the agent and the workflow), and the abstract behaviour of pydantic
input-model validation (`input_model_class(**input_data).dict()`) per tool
name — `.ok` is the validated field dict, `.exn` a raised validation fault.
(CPython routes a `TypeError` for a non-mapping `input_data` through the
generic handler rather than the `ValueError` one; the two differ only in the
error message text, which no claim depends on.) -/
structure Ctx where
  lib : PyLib
  tools : List (Str × Tool)
  validate : Str → Json → PyOutcome Json

/-- The uniform error record `_execute_tool_safely` returns on any caught
exception. -/
def errRecord (msg tool_name tool_input : Str) : PyDict :=
  [(str "error", .str msg), (str "status", .str (str "error")),
   (str "tool_name", .str tool_name), (str "input", .str tool_input)]

/-- `ReActWorkflow._execute_tool_safely`: dict lookup (a `KeyError` falls to
the generic handler), input-model lookup (a missing model raises
`ValueError`), `json.loads` (a decode error has its own handler), pydantic
validation, then `tool._arun` whose result is `model_dump()`ed.  Every
outcome is a returned record; nothing propagates. -/
def execute_tool_safely (ctx : Ctx) (tool_name tool_input : Str) : PyDict :=
  match List.lookup tool_name ctx.tools with
  | none => errRecord (str "KeyError: " ++ tool_name) tool_name tool_input
  | some tool =>
    if TOOL_INPUT_MODELS.contains tool_name then
      match ctx.lib.loads tool_input with
      | .error e => errRecord (str "Invalid JSON input: " ++ e) tool_name tool_input
      | .ok input_data =>
        match ctx.validate tool_name input_data with
        | .exn e => errRecord (str "Input validation failed: " ++ e) tool_name tool_input
        | .ok validated => (tool.arun validated).model_dump
    else
      errRecord (str "Input validation failed: No input model defined for tool: "
        ++ tool_name) tool_name tool_input

/-! ### AgentState (src/agent/domain/entities/context.py) and the nodes -/

/-- A conversation message (`HumanMessage` / `AIMessage`). -/
structure Message where
  role : Str
  content : Str

/-- `AIMessage(content=c)`. -/
def aiMsg (c : Str) : Message := ⟨str "ai", c⟩

/-- `AgentState`.  `plan` is declared `str` in the source, but pydantic does
not validate attribute assignment by default and the reflection node can
assign it an arbitrary JSON value (`evaluation["updated_plan"]`), so it is
embedded as a JSON value.  `current_step` starts at 0 and is only ever
incremented, so it is embedded as a natural number. -/
structure AgentState where
  messages : List Message
  tools_used : List Str
  intermediate_results : List PyDict
  plan : Json
  sub_goals : List Str
  reflection_notes : List Str
  tool_output : Option ToolResult
  tool_error : Option PyDict
  action_history : List PyDict
  final_answer : Option Str
  reflection_decision : Option Str
  current_step : Nat
  max_steps : Nat

/-- `ReActWorkflow._reasoning_node`.  `StockReActAgent.reason` catches every
fault of the chat collaborator and returns `{"response": f"Error: {str(e)}"}`,
so the node's own handler is unreachable; the marker branch runs the
final-answer regex only when the response contains `FINAL ANSWER`. -/
def reasoning_node (chatOut : PyOutcome Str) (state : AgentState) : AgentState :=
  let content := match chatOut with
    | .ok s => s
    | .exn e => str "Error: " ++ e
  let st := { state with
    plan := if state.plan.pyTruthy then state.plan
            else .str (str "Generate plan to answer user query using available tools."),
    sub_goals := if state.sub_goals.isEmpty then
        [str "Identify relevant tools", str "Execute tools", str "Synthesize results"]
      else state.sub_goals,
    messages := state.messages ++ [aiMsg content] }
  if containsSubstr (str "FINAL ANSWER") content then
    match extractFinalAnswer content with
    | some ans =>
      { st with final_answer := some ans, reflection_decision := some (str "end") }
    | none => st
  else st

/-- `state.messages[-1].content if state.messages else ""`. -/
def lastContent (state : AgentState) : Str :=
  match state.messages.getLast? with
  | some m => m.content
  | none => []

/-- The no-valid-action branch of `_action_node`: notice message, step
increment, and `reflection_decision = "end" if state.final_answer else
"continue"`. -/
def noActionUpdate (state : AgentState) : AgentState :=
  { state with
    messages := state.messages ++ [aiMsg (str "No valid tool action found")],
    current_step := state.current_step + 1,
    reflection_decision :=
      some (if truthy state.final_answer then str "end" else str "continue") }

/-- The `except Exception` handler of `_action_node`. -/
def actionExnUpdate (state : AgentState) (e : Str) : AgentState :=
  { state with
    messages := state.messages ++ [aiMsg (str "Error in action: " ++ e)],
    current_step := state.current_step + 1,
    final_answer := some (str "Error: " ++ e),
    reflection_decision := some (str "end") }

/-- `ReActWorkflow._action_node`.  With a truthy final answer the node only
forces `reflection_decision = "end"`.  Otherwise it parses the latest AI
message; on a parsed action it dispatches, formats, and appends to
`messages`, `tools_used` and `intermediate_results` (the appended record has
exactly the four keys the source literal lists); otherwise it takes the
no-valid-action branch.  The node handler is reachable only through
`ToolResult(**tool_result)`, which never fails on records
`_execute_tool_safely` produces. -/
def action_node (ctx : Ctx) (state : AgentState) : AgentState :=
  if truthy state.final_answer then
    { state with reflection_decision := some (str "end") }
  else
    let llm_response := lastContent state
    match parse_tool_usage ctx.lib (ctx.tools.map Prod.fst) llm_response with
    | some (tool_name, tool_input) =>
      if !tool_name.isEmpty && !tool_input.isEmpty then
        let tool_result := execute_tool_safely ctx tool_name tool_input
        let formatted := format_tool_result ctx.lib tool_name tool_result
        match ToolResult.ofDict tool_result with
        | some tr =>
          { state with
            messages := state.messages ++ [aiMsg (str "Observation: " ++ formatted)],
            current_step := state.current_step + 1,
            tools_used := state.tools_used ++ [tool_name],
            intermediate_results := state.intermediate_results ++
              [[(str "llm_output", .str llm_response),
                (str "observation", .str formatted),
                (str "tool_name", .str tool_name),
                (str "success",
                  .bool ((dictGetD tool_result (str "status") .null).eqStr
                    (str "success")))]],
            tool_output := some tr }
        | none => actionExnUpdate state (str "ToolResult validation failed")
      else noActionUpdate state
    | none => noActionUpdate state

/-- Result of evaluating the reflection verdict checks
(`all(key in evaluation ...)`, `evaluation["decision"] not in [...]`) on a
parsed response: a valid triple, a raised `ValueError` (handled by the
fallback), or a raised `TypeError` (handled by the node's outer handler).
The embedded exception texts are claim-irrelevant stand-ins for CPython's. -/
inductive EvalOutcome where
  | ok (decision : Str) (reason : Json) (updated_plan : Json) : EvalOutcome
  | valueErr (msg : Str) : EvalOutcome
  | typeErr (msg : Str) : EvalOutcome

/-- The verdict checks of `_reflection_node` on the parsed JSON value,
following Python membership semantics: key membership on a dict, element
equality on a list, substring containment on a string, and a `TypeError`
for `in` on any other value.  Indexing a non-dict with `"decision"` is a
`TypeError`. -/
def evalVerdict (J : PyLib) (ev : Json) : EvalOutcome :=
  match ev with
  | .obj fields =>
    if (List.lookup (str "decision") fields).isSome
        && (List.lookup (str "reason") fields).isSome
        && (List.lookup (str "updated_plan") fields).isSome then
      let d := dictGetD fields (str "decision") .null
      if d.eqStr (str "continue") || d.eqStr (str "retry") || d.eqStr (str "end") then
        match d with
        | .str ds => .ok ds (dictGetD fields (str "reason") .null)
            (dictGetD fields (str "updated_plan") .null)
        | _ => .typeErr (str "unreachable")
      else .valueErr (str "Invalid decision: " ++ fstr J d)
    else .valueErr (str "Invalid LLM evaluation response format")
  | .arr xs =>
    if xs.any (fun j => j.eqStr (str "decision"))
        && xs.any (fun j => j.eqStr (str "reason"))
        && xs.any (fun j => j.eqStr (str "updated_plan")) then
      .typeErr (str "list indices must be integers or slices, not str")
    else .valueErr (str "Invalid LLM evaluation response format")
  | .str s =>
    if containsSubstr (str "decision") s && containsSubstr (str "reason") s
        && containsSubstr (str "updated_plan") s then
      .typeErr (str "string indices must be integers")
    else .valueErr (str "Invalid LLM evaluation response format")
  | _ => .typeErr (str "argument is not iterable")

/-- The skip branch of `_reflection_node` (final answer already set). -/
def reflectionSkipUpdate (state : AgentState) : AgentState :=
  { state with
    reflection_decision := some (str "end"),
    reflection_notes := state.reflection_notes
      ++ [str "Skipped reflection due to existing final answer"] }

/-- The `except Exception` handler of `_reflection_node`. -/
def reflectionExnUpdate (state : AgentState) (e : Str) : AgentState :=
  { state with
    messages := state.messages ++ [aiMsg (str "Error in reflection: " ++ e)],
    current_step := state.current_step + 1,
    final_answer := some (str "Error: " ++ e),
    reflection_decision := some (str "end"),
    reflection_notes := state.reflection_notes ++ [str "Error during reflection: " ++ e] }

/-- Cleaning applied to the reflection response before parsing: `strip()`,
the fence-marker `re.sub`, then `" ".join(split())`. -/
def cleanReflection (J : PyLib) (content : Str) : Str :=
  wsNormalize (J.reSubReflection (pyStrip content))

/-- The state update `_reflection_node` performs from an evaluation dict
(also used by the parse-failure fallback, whose decision is `"end"`). -/
def applyEvaluation (J : PyLib) (state : AgentState) (decision : Str)
    (reason updated_plan : Json) : AgentState :=
  let base := { state with
    reflection_notes := state.reflection_notes
      ++ [str "LLM Evaluation: " ++ fstr J reason],
    reflection_decision := some decision }
  if decision = str "retry" then
    { base with
      plan := if updated_plan.pyTruthy then updated_plan
              else .str (str "Retry with alternative approach: " ++ fstr J state.plan),
      sub_goals := base.sub_goals
        ++ [str "Resolve issue based on LLM evaluation: " ++ fstr J reason] }
  else if decision = str "continue" then
    { base with
      plan := if updated_plan.pyTruthy then updated_plan else state.plan,
      sub_goals := base.sub_goals
        ++ [str "Continue collecting data based on LLM evaluation"] }
  else base

/-- Cleaning, `json.loads` and the verdict checks applied by
`_reflection_node` to the collaborator's response: a `JSONDecodeError`
becomes a `.valueErr` (both exception classes share the fallback handler). -/
def reflectionEval (J : PyLib) (content : Str) : EvalOutcome :=
  match J.loads (cleanReflection J content) with
  | .error e => .valueErr e
  | .ok ev => evalVerdict J ev

/-- `ReActWorkflow._reflection_node`: skip on a truthy final answer; ask the
chat collaborator; clean and parse the response; fall back to an `"end"`
verdict with a parse-failure reason on `JSONDecodeError`/`ValueError`; a
`TypeError` (non-indexable response shape) reaches the node's outer
handler. -/
def reflection_node (J : PyLib) (chatOut : PyOutcome Str) (state : AgentState) :
    AgentState :=
  if truthy state.final_answer then reflectionSkipUpdate state
  else
    match chatOut with
    | .exn e => reflectionExnUpdate state e
    | .ok content =>
      match reflectionEval J content with
      | .ok d r p => applyEvaluation J state d r p
      | .valueErr m =>
        applyEvaluation J state (str "end")
          (.str (str "Failed to parse LLM evaluation: " ++ m)) (.str [])
      | .typeErr m => reflectionExnUpdate state m

/-- `ReActWorkflow._should_continue`: the conditional edge out of
reflection.  (Its own `try/except` is unreachable: the body cannot raise.) -/
def should_continue (state : AgentState) : Str :=
  if truthy state.final_answer ∨ state.max_steps ≤ state.current_step then str "end"
  else if state.reflection_decision = some (str "retry") then str "continue"
  else if state.reflection_decision = some (str "end") then str "end"
  else str "continue"

/-- `ReActWorkflow._generate_final_answer`: fixed fallback on a missing
query; the chat collaborator's response is stripped and fence-cleaned, an
empty result or a raised fault each map to a fixed non-empty string. -/
def generate_final_answer (J : PyLib) (chatOut : PyOutcome Str)
    (state : AgentState) : Str :=
  let query := match state.messages.head? with
    | some m => m.content
    | none => []
  if query.isEmpty then
    str "Tôi không thể xử lý câu hỏi của bạn vì không có câu hỏi gốc. Vui lòng thử lại."
  else
    match chatOut with
    | .exn _ =>
      str "Tôi xin lỗi, đã xảy ra lỗi khi xử lý câu hỏi của bạn. Vui lòng thử lại sau."
    | .ok resp =>
      let fa := J.reSubFinal (pyStrip resp)
      if fa.isEmpty then
        str "Tôi không thể cung cấp câu trả lời chi tiết lúc này. Vui lòng thử lại hoặc cung cấp thêm thông tin."
      else fa

/-- `ReActWorkflow._final_output_node`: pass an existing truthy answer
through unchanged (appending it as an AI message), otherwise synthesize one;
`_generate_final_answer` catches its own faults, so the node handler is
unreachable. -/
def final_output_node (J : PyLib) (chatOut : PyOutcome Str) (state : AgentState) :
    AgentState :=
  if truthy state.final_answer then
    { state with messages := state.messages ++ [aiMsg (state.final_answer.getD [])] }
  else
    let fa := generate_final_answer J chatOut state
    { state with messages := state.messages ++ [aiMsg fa], final_answer := some fa }

/-! ### ReActWorkflow.run: the compiled graph -/

/-- The initial `AgentState` built by `ReActWorkflow.run`. -/
def initialState (query : Str) : AgentState :=
  { messages := [⟨str "human", query⟩], tools_used := [],
    intermediate_results := [], plan := .str [], sub_goals := [],
    reflection_notes := [], tool_output := none, tool_error := none,
    action_history := [], final_answer := none,
    reflection_decision := some (str "continue"),
    current_step := 0, max_steps := 10 }

/-- Per-run behaviour of the chat collaborator: the reasoning and reflection
responses for each loop iteration, and the final-synthesis response. -/
structure RunEnv where
  reasonChat : Nat → PyOutcome Str
  reflectChat : Nat → PyOutcome Str
  finalChat : PyOutcome Str

/-- One reasoning → action → reflection pass of the graph. -/
def cycle (ctx : Ctx) (r f : PyOutcome Str) (s : AgentState) : AgentState :=
  reflection_node ctx.lib f (action_node ctx (reasoning_node r s))

/-- The graph loop: run a cycle, evaluate the conditional edge, loop back to
reasoning on `"continue"`.  Returns the pre-final-output state, the number of
cycles executed, and whether the loop exited through the `"end"` edge (the
`false` case is a fuel artefact; the termination theorem shows it is never
reached from `run`'s initial state with `max_steps` fuel). -/
def loopAux (ctx : Ctx) (env : RunEnv) : Nat → Nat → AgentState → AgentState × Nat × Bool
  | _, 0, s => (s, 0, false)
  | i, fuel + 1, s =>
    let nextState := cycle ctx (env.reasonChat i) (env.reflectChat i) s
    if should_continue nextState = str "end" then (nextState, 1, true)
    else
      let r := loopAux ctx env (i + 1) fuel nextState
      (r.1, r.2.1 + 1, r.2.2)

/-- The answer `run` produces when the workflow result's `final_answer` is
falsy: the source then calls `self._generate_fallback_answer`, a method
defined nowhere in the repository, so an `AttributeError` is raised and
caught by `run`'s outer handler, which returns the fixed system-error answer
(its interpolated exception text is abbreviated here; no claim depends on
it). -/
def runErrAnswer : Str :=
  str "Xin lỗi, đã xảy ra lỗi hệ thống khi xử lý câu hỏi của bạn: AttributeError"

/-- `ReActWorkflow.run`: initial state, the loop (given `max_steps` fuel),
the final-output node, and answer extraction.  Returns the answer, the
number of reasoning/action/reflection cycles, and the loop-completion flag. -/
def run_model (ctx : Ctx) (env : RunEnv) (query : Str) : Str × Nat × Bool :=
  let init := initialState query
  let res := loopAux ctx env 0 init.max_steps init
  let final := final_output_node ctx.lib env.finalChat res.1
  let answer := match final.final_answer with
    | some a => if a.isEmpty then runErrAnswer else a
    | none => runErrAnswer
  (answer, res.2.1, res.2.2)

/-! ### Node-level structural lemmas -/

theorem reasoning_preserves (r : PyOutcome Str) (s : AgentState) :
    (reasoning_node r s).current_step = s.current_step ∧
    (reasoning_node r s).max_steps = s.max_steps ∧
    (reasoning_node r s).tools_used = s.tools_used ∧
    (reasoning_node r s).intermediate_results = s.intermediate_results ∧
    (reasoning_node r s).reflection_notes = s.reflection_notes := by
  unfold reasoning_node
  cases r <;> dsimp only <;> split <;> (try split) <;>
    exact ⟨rfl, rfl, rfl, rfl, rfl⟩

theorem action_skip (ctx : Ctx) (s : AgentState)
    (h : truthy s.final_answer = true) :
    action_node ctx s = { s with reflection_decision := some (str "end") } := by
  unfold action_node
  simp [h]

theorem action_step_incr (ctx : Ctx) (s : AgentState)
    (h : truthy s.final_answer = false) :
    (action_node ctx s).current_step = s.current_step + 1 := by
  unfold action_node
  simp only [h, Bool.false_eq_true, if_false]
  try dsimp only
  split <;> (try split) <;> (try split) <;> rfl

theorem action_preserves_notes (ctx : Ctx) (s : AgentState) :
    (action_node ctx s).reflection_notes = s.reflection_notes := by
  unfold action_node
  split
  · rfl
  · dsimp only
    split <;> (try split) <;> (try split) <;> rfl

theorem action_preserves_max (ctx : Ctx) (s : AgentState) :
    (action_node ctx s).max_steps = s.max_steps := by
  unfold action_node
  split
  · rfl
  · dsimp only
    split <;> (try split) <;> (try split) <;> rfl

theorem reflection_skip (J : PyLib) (f : PyOutcome Str) (s : AgentState)
    (h : truthy s.final_answer = true) :
    reflection_node J f s = reflectionSkipUpdate s := by
  unfold reflection_node
  simp [h]

theorem reflection_step_ge (J : PyLib) (f : PyOutcome Str) (s : AgentState) :
    s.current_step ≤ (reflection_node J f s).current_step := by
  unfold reflection_node reflectionSkipUpdate reflectionExnUpdate applyEvaluation
  split
  · exact Nat.le_refl _
  · split
    · exact Nat.le_succ _
    · split <;> dsimp only <;> (try split) <;> (try split) <;>
        first
        | exact Nat.le_refl _
        | exact Nat.le_succ _

theorem reflection_preserves_lists (J : PyLib) (f : PyOutcome Str) (s : AgentState) :
    (reflection_node J f s).tools_used = s.tools_used ∧
    (reflection_node J f s).intermediate_results = s.intermediate_results ∧
    (reflection_node J f s).max_steps = s.max_steps := by
  unfold reflection_node reflectionSkipUpdate reflectionExnUpdate applyEvaluation
  split
  · exact ⟨rfl, rfl, rfl⟩
  · split
    · exact ⟨rfl, rfl, rfl⟩
    · split <;> dsimp only <;> (try split) <;> (try split) <;> exact ⟨rfl, rfl, rfl⟩

theorem final_output_preserves (J : PyLib) (g : PyOutcome Str) (s : AgentState) :
    (final_output_node J g s).tools_used = s.tools_used ∧
    (final_output_node J g s).intermediate_results = s.intermediate_results ∧
    (final_output_node J g s).current_step = s.current_step := by
  unfold final_output_node
  split <;> exact ⟨rfl, rfl, rfl⟩

theorem sc_end_of_truthy (s : AgentState) (h : truthy s.final_answer = true) :
    should_continue s = str "end" := by
  unfold should_continue
  rw [if_pos (Or.inl h)]

theorem sc_end_of_steps (s : AgentState) (h : s.max_steps ≤ s.current_step) :
    should_continue s = str "end" := by
  unfold should_continue
  rw [if_pos (Or.inr h)]

/-! ### Loop progress and termination -/

theorem cycle_max (ctx : Ctx) (r f : PyOutcome Str) (s : AgentState) :
    (cycle ctx r f s).max_steps = s.max_steps := by
  unfold cycle
  rw [(reflection_preserves_lists ctx.lib f _).2.2, action_preserves_max,
    (reasoning_preserves r s).2.1]

/-- Whenever the conditional edge after a cycle does not choose `"end"`, the
action node incremented the step counter during that cycle. -/
theorem cycle_progress (ctx : Ctx) (r f : PyOutcome Str) (s : AgentState)
    (h : ¬ should_continue (cycle ctx r f s) = str "end") :
    s.current_step + 1 ≤ (cycle ctx r f s).current_step := by
  by_cases hfa : truthy (reasoning_node r s).final_answer = true
  · exfalso
    apply h
    have ha := action_skip ctx (reasoning_node r s) hfa
    have hfa2 : truthy (action_node ctx (reasoning_node r s)).final_answer = true := by
      rw [ha]; exact hfa
    have hr := reflection_skip ctx.lib f _ hfa2
    unfold cycle
    rw [hr]
    apply sc_end_of_truthy
    exact hfa2
  · have hstep := action_step_incr ctx (reasoning_node r s)
      (by revert hfa; cases truthy (reasoning_node r s).final_answer <;> simp)
    unfold cycle
    calc s.current_step + 1
        = (reasoning_node r s).current_step + 1 := by
          rw [(reasoning_preserves r s).1]
      _ = (action_node ctx (reasoning_node r s)).current_step := hstep.symm
      _ ≤ _ := reflection_step_ge ctx.lib f _

/-- With `max_steps ≤ current_step + fuel + 1`, the loop with `fuel + 1`
cycles of fuel always exits through the `"end"` edge, within that fuel. -/
theorem loopAux_terminates (ctx : Ctx) (env : RunEnv) :
    ∀ (fuel i : Nat) (s : AgentState),
      s.max_steps ≤ s.current_step + fuel + 1 →
      (loopAux ctx env i (fuel + 1) s).2.2 = true ∧
      (loopAux ctx env i (fuel + 1) s).2.1 ≤ fuel + 1 := by
  intro fuel
  induction fuel with
  | zero =>
    intro i s hle
    rw [loopAux]
    dsimp only
    split
    · exact ⟨rfl, Nat.le_refl _⟩
    · next hne =>
      exfalso
      apply hne
      apply sc_end_of_steps
      rw [cycle_max]
      exact Nat.le_trans (by omega)
        (cycle_progress ctx (env.reasonChat i) (env.reflectChat i) s hne)
  | succ fuel ih =>
    intro i s hle
    rw [loopAux]
    dsimp only
    split
    · refine ⟨rfl, ?_⟩
      show (1 : Nat) ≤ fuel + 1 + 1
      omega
    · next hne =>
      have hprog := cycle_progress ctx (env.reasonChat i) (env.reflectChat i) s hne
      have hmax := cycle_max ctx (env.reasonChat i) (env.reflectChat i) s
      have hrec := ih (i + 1) (cycle ctx (env.reasonChat i) (env.reflectChat i) s)
        (by rw [hmax]; omega)
      refine ⟨hrec.1, ?_⟩
      show (loopAux ctx env (i + 1) (fuel + 1)
        (cycle ctx (env.reasonChat i) (env.reflectChat i) s)).2.1 + 1 ≤ fuel + 1 + 1
      have h2 := hrec.2
      omega

theorem run_model_answer_ne (ctx : Ctx) (env : RunEnv) (query : Str) :
    (run_model ctx env query).1 ≠ [] := by
  unfold run_model
  dsimp only
  split
  · split
    · exact (by decide : runErrAnswer ≠ [])
    · next a _ hne =>
      intro hnil
      rw [hnil] at hne
      exact hne rfl
  · exact (by decide : runErrAnswer ≠ [])

/-! ### A concrete execution context, used by witnesses and counterexamples

`cexLoads`, `cexDumps` and the identity `re.sub` stand-ins agree with the
behaviour of CPython's `json.loads`, `json.dumps` and the two modelled
`re.sub` calls on every input they are applied to in this file (the JSON
texts below contain no fence markers and no redundant whitespace). -/

def c5block : Str :=
  str "\x7b\"action\": \"chat_llm\", \"input\": \x7b\x7d, \"x\": 1\x7d"

def c5fields : List (Str × Json) :=
  [(str "action", .str (str "chat_llm")), (str "input", .obj []), (str "x", .num 1)]

def c8block : Str := str "\x7b\"action\": \"chat_llm\", \"input\": \x7b\x7d\x7d"

def c2verdict : Str :=
  str "\x7b\"decision\": \"continue\", \"reason\": \"need more\", \"updated_plan\": \"\"\x7d"

def cexLoads : Str → Except Str Json := fun s =>
  if s = str "\x7b\x7d" then .ok (.obj [])
  else if s = c5block then .ok (.obj c5fields)
  else if s = c8block then
    .ok (.obj [(str "action", .str (str "chat_llm")), (str "input", .obj [])])
  else if s = c2verdict then
    .ok (.obj [(str "decision", .str (str "continue")),
               (str "reason", .str (str "need more")),
               (str "updated_plan", .str [])])
  else .error (str "Expecting value: line 1 column 1 (char 0)")

def cexPyLib : PyLib :=
  { loads := cexLoads,
    dumps := fun j => match j with
      | .obj [] => str "\x7b\x7d"
      | _ => str "null",
    pyStr := fun _ => str "<value>",
    reSubReflection := fun s => s,
    reSubFinal := fun s => s }

def cexTool : Tool :=
  ⟨str "chat_llm", fun _ => .ok (.obj [(str "response", .str (str "ok"))]), 0⟩

def cexCtx : Ctx := ⟨cexPyLib, [(str "chat_llm", cexTool)], fun _ j => .ok j⟩

def cexEnv : RunEnv := ⟨fun _ => .ok [], fun _ => .ok [], .ok []⟩

/-! ### Claim C1 -/

/-- **C1** (confirmed): for every query and every behaviour of the chat
collaborator and the tools, the conditional edge returns `"end"` whenever
`current_step ≥ max_steps`, and `run()` exits its loop through the `"end"`
edge after at most `max_steps` (= 10) reasoning/action/reflection cycles,
returning a record whose `answer` is a non-null (indeed non-empty) string. -/
theorem C1_run_terminates :
    (∀ s : AgentState, s.max_steps ≤ s.current_step → should_continue s = str "end") ∧
    ∀ (ctx : Ctx) (env : RunEnv) (query : Str),
      (run_model ctx env query).2.2 = true ∧
      (run_model ctx env query).2.1 ≤ (initialState query).max_steps ∧
      (run_model ctx env query).1 ≠ [] := by
  constructor
  · exact fun s h => sc_end_of_steps s h
  · intro ctx env query
    have hterm := loopAux_terminates ctx env 9 0 (initialState query) (Nat.le_refl 10)
    exact ⟨hterm.1, hterm.2, run_model_answer_ne ctx env query⟩

def c1state : AgentState := { initialState (str "q") with current_step := 10 }

/-- Witness for C1 at a concrete state, context and query. -/
theorem C1_run_terminates_witness :
    should_continue c1state = str "end" ∧
    (run_model cexCtx cexEnv (str "hi")).2.2 = true ∧
    (run_model cexCtx cexEnv (str "hi")).2.1 ≤ 10 ∧
    (run_model cexCtx cexEnv (str "hi")).1 ≠ [] :=
  ⟨C1_run_terminates.1 c1state (by decide),
   (C1_run_terminates.2 cexCtx cexEnv (str "hi")).1,
   (C1_run_terminates.2 cexCtx cexEnv (str "hi")).2.1,
   (C1_run_terminates.2 cexCtx cexEnv (str "hi")).2.2⟩

/-! ### Claim C2 -/

def c2s1 : AgentState :=
  reasoning_node (.ok (str "**FINAL ANSWER**:")) (initialState (str "hi"))

def c2s3 : AgentState :=
  reflection_node cexPyLib (.ok c2verdict) (action_node cexCtx c2s1)

/-- Counterexample to C2 as stated: the reasoning node can set
`final_answer` to the non-null but empty string (reasoner output whose
`**FINAL ANSWER**:` marker is followed by nothing).  The action node then
does not skip (the empty string is falsy) and sets
`reflection_decision = "continue"`, the reflection node evaluates normally,
the next conditional edge routes back to reasoning — not to `final_output` —
and a later reasoning node overwrites the already-set `final_answer`. -/
theorem C2_counterexample :
    c2s1.final_answer = some [] ∧
    should_continue c2s3 = str "continue" ∧
    (reasoning_node (.ok (str "**FINAL ANSWER**: done")) c2s3).final_answer
      = some (str "done") ∧
    some (str "done") ≠ c2s3.final_answer := by
  refine ⟨by decide, by decide, by decide, by decide⟩

/-- **C2** (amended): once `final_answer` holds a non-EMPTY string, the
action node skips execution and forces `reflection_decision = "end"` while
leaving `final_answer` unchanged, the reflection node does the same, the
conditional edge routes to `final_output`, and the final-output node passes
the answer through unchanged.  (The unamended claim, for every non-null
value, fails at the empty string — see the counterexample.) -/
theorem C2_final_answer_precedence (ctx : Ctx) (J : PyLib) (f g : PyOutcome Str)
    (s : AgentState) (a : Str) (hfa : s.final_answer = some a) (hne : a ≠ []) :
    (action_node ctx s).final_answer = some a ∧
    (action_node ctx s).reflection_decision = some (str "end") ∧
    (reflection_node J f s).final_answer = some a ∧
    (reflection_node J f s).reflection_decision = some (str "end") ∧
    should_continue s = str "end" ∧
    (final_output_node J g s).final_answer = some a := by
  have ht : truthy s.final_answer = true := by
    rw [hfa]; simpa [truthy] using hne
  refine ⟨?_, ?_, ?_, ?_, sc_end_of_truthy s ht, ?_⟩
  · rw [action_skip ctx s ht]; exact hfa
  · rw [action_skip ctx s ht]
  · rw [reflection_skip J f s ht]; exact hfa
  · rw [reflection_skip J f s ht]; rfl
  · unfold final_output_node
    rw [if_pos ht]
    exact hfa

def c2wit : AgentState :=
  { initialState (str "hi") with final_answer := some (str "ans") }

/-- Witness for the amended C2 at a concrete state. -/
theorem C2_final_answer_precedence_witness :
    (action_node cexCtx c2wit).final_answer = some (str "ans") ∧
    (action_node cexCtx c2wit).reflection_decision = some (str "end") ∧
    (reflection_node cexPyLib (.ok []) c2wit).final_answer = some (str "ans") ∧
    (reflection_node cexPyLib (.ok []) c2wit).reflection_decision = some (str "end") ∧
    should_continue c2wit = str "end" ∧
    (final_output_node cexPyLib (.ok []) c2wit).final_answer = some (str "ans") :=
  C2_final_answer_precedence cexCtx cexPyLib (.ok []) (.ok []) c2wit (str "ans")
    rfl (by decide)

/-! ### Claim C3 -/

theorem lookup_mem {α : Type} (k : Str) (t : α) :
    ∀ (l : List (Str × α)), List.lookup k l = some t → (k, t) ∈ l := by
  intro l
  induction l with
  | nil => intro h; simp [List.lookup] at h
  | cons p rest ih =>
    obtain ⟨k2, v⟩ := p
    intro h
    rw [List.lookup] at h
    split at h
    · next hbeq =>
      cases h
      have hk : k = k2 := by
        have := hbeq
        exact eq_of_beq this
      rw [hk]
      exact List.mem_cons_self _ _
    · exact List.mem_cons_of_mem _ (ih h)

/-- **C3** (confirmed): for any tool name (registered or not) and any input
string, `_execute_tool_safely` returns a record whose `status` is `"success"`
or `"error"` and which carries the tool name (at top level in every error
record, inside `metadata` in the `model_dump` of a result); the embedding is
a total function — JSON decode failures, validation failures, missing input
models, unknown tools and tool faults all become records, and no exception
reaches the workflow controller.  The hypothesis states that registry keys
match the tools' `name` attributes (true of the registry the service
constructs). -/
theorem C3_dispatcher_total (ctx : Ctx) (tool_name tool_input : Str)
    (hnames : ∀ p ∈ ctx.tools, (Prod.snd p).name = p.1) :
    ((dictGetD (execute_tool_safely ctx tool_name tool_input) (str "status") .null).eqStr
        (str "success") = true
      ∨ (dictGetD (execute_tool_safely ctx tool_name tool_input) (str "status") .null).eqStr
        (str "error") = true) ∧
    (List.lookup (str "tool_name") (execute_tool_safely ctx tool_name tool_input)
        = some (.str tool_name)
      ∨ ∃ md, List.lookup (str "metadata") (execute_tool_safely ctx tool_name tool_input)
            = some (.obj md)
          ∧ List.lookup (str "tool_name") md = some (.str tool_name)) := by
  unfold execute_tool_safely
  split
  · exact ⟨Or.inr rfl, Or.inl rfl⟩
  · next tool hlk =>
    have hname : tool.name = tool_name :=
      hnames (tool_name, tool) (lookup_mem tool_name tool ctx.tools hlk)
    split
    · split
      · exact ⟨Or.inr rfl, Or.inl rfl⟩
      · split
        · exact ⟨Or.inr rfl, Or.inl rfl⟩
        · next validated hval =>
          cases hexec : tool.execute_impl validated with
          | ok resultData =>
            have ha : tool.arun validated = ⟨str "success", resultData, toolStateDump tool⟩ := by
              unfold Tool.arun
              rw [hexec]
            rw [ha]
            refine ⟨Or.inl rfl, Or.inr ⟨toolStateDump tool, rfl, ?_⟩⟩
            show some (Json.str tool.name) = some (Json.str tool_name)
            rw [hname]
          | exn m =>
            have ha : tool.arun validated = ⟨str "error", .obj [], toolStateDump tool⟩ := by
              unfold Tool.arun
              rw [hexec]
            rw [ha]
            refine ⟨Or.inr rfl, Or.inr ⟨toolStateDump tool, rfl, ?_⟩⟩
            show some (Json.str tool.name) = some (Json.str tool_name)
            rw [hname]
    · exact ⟨Or.inr rfl, Or.inl rfl⟩

/-- Witness for C3 at a concrete context, an unregistered tool name and a
malformed input. -/
theorem C3_dispatcher_total_witness :
    ((dictGetD (execute_tool_safely cexCtx (str "nope") (str "oops")) (str "status")
        .null).eqStr (str "success") = true
      ∨ (dictGetD (execute_tool_safely cexCtx (str "nope") (str "oops")) (str "status")
        .null).eqStr (str "error") = true) ∧
    (List.lookup (str "tool_name") (execute_tool_safely cexCtx (str "nope") (str "oops"))
        = some (.str (str "nope"))
      ∨ ∃ md, List.lookup (str "metadata")
            (execute_tool_safely cexCtx (str "nope") (str "oops")) = some (.obj md)
          ∧ List.lookup (str "tool_name") md = some (.str (str "nope"))) :=
  C3_dispatcher_total cexCtx (str "nope") (str "oops") (by decide)

/-! ### Claim C4 -/

/-- Invariant P3: `tools_used` and `intermediate_results` are index-aligned —
equal lengths, and the i-th record's `tool_name` entry equals the i-th used
tool name. -/
def alignedInv (s : AgentState) : Prop :=
  s.tools_used.length = s.intermediate_results.length ∧
  ∀ p ∈ s.intermediate_results.zip s.tools_used,
    List.lookup (str "tool_name") p.1 = some (.str p.2)

/-- The action node either leaves `tools_used`/`intermediate_results`
untouched or appends one name and one record built with that same name
(and exactly the four keys of the source's dict literal). -/
theorem action_lists (ctx : Ctx) (s : AgentState) :
    ((action_node ctx s).tools_used = s.tools_used ∧
      (action_node ctx s).intermediate_results = s.intermediate_results) ∨
    ∃ tn rec, (action_node ctx s).tools_used = s.tools_used ++ [tn] ∧
      (action_node ctx s).intermediate_results = s.intermediate_results ++ [rec] ∧
      rec.map Prod.fst
        = [str "llm_output", str "observation", str "tool_name", str "success"] ∧
      List.lookup (str "tool_name") rec = some (.str tn) ∧
      List.lookup (str "error_message") rec = none := by
  unfold action_node
  split
  · exact Or.inl ⟨rfl, rfl⟩
  · dsimp only
    split
    · split
      · split
        · exact Or.inr ⟨_, _, rfl, rfl, rfl, rfl, rfl⟩
        · exact Or.inl ⟨rfl, rfl⟩
      · exact Or.inl ⟨rfl, rfl⟩
    · exact Or.inl ⟨rfl, rfl⟩

/-- **C4** (confirmed): the invariant holds initially and is preserved by
every node — the action node is the only writer and appends to both
sequences together with the same tool name. -/
theorem C4_index_alignment :
    (∀ query, alignedInv (initialState query)) ∧
    (∀ (r : PyOutcome Str) (s : AgentState),
      alignedInv s → alignedInv (reasoning_node r s)) ∧
    (∀ (ctx : Ctx) (s : AgentState),
      alignedInv s → alignedInv (action_node ctx s)) ∧
    (∀ (J : PyLib) (f : PyOutcome Str) (s : AgentState),
      alignedInv s → alignedInv (reflection_node J f s)) ∧
    (∀ (J : PyLib) (g : PyOutcome Str) (s : AgentState),
      alignedInv s → alignedInv (final_output_node J g s)) := by
  refine ⟨?_, ?_, ?_, ?_, ?_⟩
  · intro query
    exact ⟨rfl, by intro p hp; simp [initialState] at hp⟩
  · intro r s h
    have hp := reasoning_preserves r s
    unfold alignedInv at h ⊢
    rw [hp.2.2.1, hp.2.2.2.1]
    exact h
  · intro ctx s h
    rcases action_lists ctx s with ⟨h1, h2⟩ | ⟨tn, rec, h1, h2, _, hlk, _⟩
    · unfold alignedInv at h ⊢
      rw [h1, h2]
      exact h
    · unfold alignedInv at h ⊢
      rw [h1, h2]
      refine ⟨by simp [h.1], ?_⟩
      intro p hp
      rw [List.zip_append h.1.symm] at hp
      rcases List.mem_append.1 hp with hold | hnew
      · exact h.2 p hold
      · have : p = (rec, tn) := by simpa using hnew
        rw [this]
        exact hlk
  · intro J f s h
    have hp := reflection_preserves_lists J f s
    unfold alignedInv at h ⊢
    rw [hp.1, hp.2.1]
    exact h
  · intro J g s h
    have hp := final_output_preserves J g s
    unfold alignedInv at h ⊢
    rw [hp.1, hp.2.1]
    exact h

def c4state : AgentState :=
  { initialState (str "hi") with
    messages := [⟨str "human", str "hi"⟩, aiMsg (str "```json\n" ++ c8block ++ str "\n```")] }

/-- Witness for C4: the invariant survives a concrete action step that
actually dispatches a tool. -/
theorem C4_index_alignment_witness :
    alignedInv (initialState (str "hi")) ∧
    (alignedInv c4state → alignedInv (action_node cexCtx c4state)) :=
  ⟨C4_index_alignment.1 (str "hi"),
   fun h => C4_index_alignment.2.2.1 cexCtx c4state h⟩

/-! ### Claim C8 -/

/-- **C8** (amended): every completed action step appends exactly one record
to `intermediate_results`, and that record has exactly the four fields
`llm_output`, `observation`, `tool_name`, `success` — there is no
`error_message` field — and the sequence is append-only: no node modifies or
removes existing records. -/
theorem C8_record_shape (ctx : Ctx) (J : PyLib) (r f g : PyOutcome Str)
    (s : AgentState) :
    ((action_node ctx s).intermediate_results = s.intermediate_results ∨
      ∃ rec, (action_node ctx s).intermediate_results = s.intermediate_results ++ [rec]
        ∧ rec.map Prod.fst
            = [str "llm_output", str "observation", str "tool_name", str "success"]
        ∧ List.lookup (str "error_message") rec = none) ∧
    (reasoning_node r s).intermediate_results = s.intermediate_results ∧
    (reflection_node J f s).intermediate_results = s.intermediate_results ∧
    (final_output_node J g s).intermediate_results = s.intermediate_results := by
  refine ⟨?_, (reasoning_preserves r s).2.2.2.1,
    (reflection_preserves_lists J f s).2.1, (final_output_preserves J g s).2.1⟩
  rcases action_lists ctx s with ⟨_, h2⟩ | ⟨tn, rec, _, h2, hkeys, _, hnoerr⟩
  · exact Or.inl h2
  · exact Or.inr ⟨rec, h2, hkeys, hnoerr⟩

def c8rec : PyDict :=
  [(str "llm_output", .str (str "```json\n" ++ c8block ++ str "\n```")),
   (str "observation", .str (str "LLM response: ok")),
   (str "tool_name", .str (str "chat_llm")),
   (str "success", .bool true)]

/-- Counterexample to C8 as stated: a concrete completed action step appends
a record with four fields only; the claimed fifth field `error_message` is
absent. -/
theorem C8_counterexample :
    (action_node cexCtx c4state).intermediate_results = [c8rec] ∧
    c8rec.map Prod.fst
      = [str "llm_output", str "observation", str "tool_name", str "success"] ∧
    List.lookup (str "error_message") c8rec = none :=
  ⟨rfl, rfl, rfl⟩

/-! ### Claim C9 -/

/-- The condition `if tool_name and tool_input:` of `_action_node`: whether
the parse of the latest AI message yielded a dispatchable action. -/
def actionFound (ctx : Ctx) (s : AgentState) : Bool :=
  match parse_tool_usage ctx.lib (ctx.tools.map Prod.fst) (lastContent s) with
  | some (n, i) => !n.isEmpty && !i.isEmpty
  | none => false

theorem sc_continue (s : AgentState) (h1 : truthy s.final_answer = false)
    (h2 : s.current_step < s.max_steps)
    (h3 : s.reflection_decision = some (str "continue")) :
    should_continue s = str "continue" := by
  have hc1 : ¬ (truthy s.final_answer = true ∨ s.max_steps ≤ s.current_step) := by
    rw [h1]
    simp
    omega
  have hc2 : ¬ s.reflection_decision = some (str "retry") := by
    rw [h3]; decide
  have hc3 : ¬ s.reflection_decision = some (str "end") := by
    rw [h3]; decide
  unfold should_continue
  rw [if_neg hc1, if_neg hc2, if_neg hc3]

/-- **C9** (confirmed): when the action node finds no valid tool action and
the state has no final answer, it appends the notice message, increments
`current_step`, and sets `reflection_decision = "continue"`; the conditional
edge evaluated on the resulting state still chooses `"continue"` as long as
the incremented step counter is below `max_steps` — the run loops back,
bounded by the step counter. -/
theorem C9_no_action_loops_back (ctx : Ctx) (s : AgentState)
    (hfa : s.final_answer = none) (hparse : actionFound ctx s = false) :
    action_node ctx s = { s with
      messages := s.messages ++ [aiMsg (str "No valid tool action found")],
      current_step := s.current_step + 1,
      reflection_decision := some (str "continue") } ∧
    (s.current_step + 1 < s.max_steps →
      should_continue (action_node ctx s) = str "continue") := by
  have ht : truthy s.final_answer = false := by rw [hfa]; rfl
  have hnode : action_node ctx s = noActionUpdate s := by
    unfold action_node
    rw [if_neg (by rw [ht]; exact Bool.false_ne_true)]
    unfold actionFound at hparse
    cases hp : parse_tool_usage ctx.lib (ctx.tools.map Prod.fst) (lastContent s) with
    | none =>
      dsimp only
      rw [hp]
    | some pr =>
      obtain ⟨n, i⟩ := pr
      rw [hp] at hparse
      dsimp only at hparse
      dsimp only
      rw [hp]
      dsimp only
      rw [hparse]
      rw [if_neg Bool.false_ne_true]
  have hupd : noActionUpdate s = { s with
      messages := s.messages ++ [aiMsg (str "No valid tool action found")],
      current_step := s.current_step + 1,
      reflection_decision := some (str "continue") } := by
    unfold noActionUpdate
    rw [hfa]
    rfl
  constructor
  · rw [hnode, hupd]
  · intro hlt
    rw [hnode, hupd]
    apply sc_continue
    · show truthy s.final_answer = false
      exact ht
    · show s.current_step + 1 < s.max_steps
      exact hlt
    · rfl

/-- Witness for C9 at a concrete state whose latest message holds no
parsable action. -/
theorem C9_no_action_loops_back_witness :
    action_node cexCtx (initialState (str "hi")) = { initialState (str "hi") with
      messages := (initialState (str "hi")).messages
        ++ [aiMsg (str "No valid tool action found")],
      current_step := 1,
      reflection_decision := some (str "continue") } ∧
    should_continue (action_node cexCtx (initialState (str "hi"))) = str "continue" :=
  ⟨(C9_no_action_loops_back cexCtx (initialState (str "hi")) rfl rfl).1,
   (C9_no_action_loops_back cexCtx (initialState (str "hi")) rfl rfl).2 (by decide)⟩

/-! ### Claim C10 -/

/-- **C10** (confirmed): `format_tool_result` treats a dict with no `status`
key as an error result (the `.get` default is `"error"`), renders a missing
`error` key as `Unknown error`, and in particular renders the `ToolResult` a
tool fault produces in `CustomBaseTool._arun` (`status="error"`, empty data,
no top-level `error` key) as `Tool {name} failed: Unknown error`. -/
theorem C10_unknown_error (J : PyLib) (tool_name : Str) (d : PyDict)
    (t : Tool) (input : Json) (m : Str)
    (hs : List.lookup (str "status") d = none)
    (he : List.lookup (str "error") d = none)
    (hexn : t.execute_impl input = .exn m) :
    format_tool_result J tool_name d
      = str "Tool " ++ tool_name ++ str " failed: Unknown error" ∧
    List.lookup (str "error") ((t.arun input).model_dump) = none ∧
    format_tool_result J tool_name ((t.arun input).model_dump)
      = str "Tool " ++ tool_name ++ str " failed: Unknown error" := by
  have hfail : ∀ (d2 : PyDict),
      (dictGetD d2 (str "status") (.str (str "error"))).eqStr (str "error") = true →
      List.lookup (str "error") d2 = none →
      format_tool_result J tool_name d2
        = str "Tool " ++ tool_name ++ str " failed: Unknown error" := by
    intro d2 hcond herr
    unfold format_tool_result
    rw [if_pos hcond]
    unfold dictGetD
    rw [herr]
    rw [List.append_assoc]
    congr 1
  refine ⟨?_, rfl, ?_⟩
  · apply hfail d _ he
    unfold dictGetD
    rw [hs]
    rfl
  · have ha : t.arun input = ⟨str "error", .obj [], toolStateDump t⟩ := by
      unfold Tool.arun
      rw [hexn]
    rw [ha]
    exact hfail _ rfl rfl

def c10tool : Tool := ⟨str "t", fun _ => .exn (str "boom"), 0⟩

/-- Witness for C10 at a concrete empty dict and a concrete faulting tool. -/
theorem C10_unknown_error_witness :
    format_tool_result cexPyLib (str "stock_price") []
      = str "Tool " ++ str "stock_price" ++ str " failed: Unknown error" ∧
    List.lookup (str "error") ((c10tool.arun .null).model_dump) = none ∧
    format_tool_result cexPyLib (str "stock_price") ((c10tool.arun .null).model_dump)
      = str "Tool " ++ str "stock_price" ++ str " failed: Unknown error" :=
  C10_unknown_error cexPyLib (str "stock_price") [] c10tool .null (str "boom")
    rfl rfl rfl

/-! ### Claim C7 -/

theorem isPrefixOf_append_self : ∀ (n t : Str), n.isPrefixOf (n ++ t) = true
  | [], _ => by simp [List.isPrefixOf]
  | a :: as, t => by
    simp only [List.cons_append, List.isPrefixOf, beq_self_eq_true, Bool.true_and]
    exact isPrefixOf_append_self as t

theorem isPrefixOf_exists : ∀ (n h : Str), n.isPrefixOf h = true → ∃ t, h = n ++ t
  | [], h, _ => ⟨h, rfl⟩
  | _ :: _, [], hp => by simp [List.isPrefixOf] at hp
  | a :: as, b :: bs, hp => by
    simp only [List.isPrefixOf, Bool.and_eq_true, beq_iff_eq] at hp
    obtain ⟨t, ht⟩ := isPrefixOf_exists as bs hp.2
    exact ⟨t, by rw [← hp.1, ht]; rfl⟩

theorem splitOnFirst_isSome_of_parts :
    ∀ (pre needle post : Str),
      (splitOnFirst needle (pre ++ needle ++ post)).isSome = true := by
  intro pre
  induction pre with
  | nil =>
    intro needle post
    rw [List.nil_append, splitOnFirst.eq_def]
    rw [if_pos (isPrefixOf_append_self needle post)]
    rfl
  | cons c rest ih =>
    intro needle post
    have hrw : (c :: rest) ++ needle ++ post = c :: (rest ++ needle ++ post) := by simp
    rw [hrw, splitOnFirst]
    split
    · rfl
    · cases hrec : splitOnFirst needle (rest ++ needle ++ post) with
      | none =>
        have hih := ih needle post
        rw [hrec] at hih
        simp at hih
      | some p => rfl

theorem splitOnFirst_parts (needle : Str) :
    ∀ (hay pre post : Str), splitOnFirst needle hay = some (pre, post) →
      hay = pre ++ needle ++ post := by
  intro hay
  induction hay with
  | nil =>
    intro pre post h
    rw [splitOnFirst] at h
    split at h
    · next hp =>
      cases h
      cases needle with
      | nil => simp
      | cons a as => simp [List.isPrefixOf] at hp
    · simp at h
  | cons c rest ih =>
    intro pre post h
    rw [splitOnFirst] at h
    split at h
    · next hp =>
      cases h
      obtain ⟨t, ht⟩ := isPrefixOf_exists needle (c :: rest) hp
      rw [List.nil_append, ht, List.drop_left]
    · cases hrec : splitOnFirst needle rest with
      | none => rw [hrec] at h; simp at h
      | some p =>
        obtain ⟨p1, p2⟩ := p
        rw [hrec] at h
        simp only [Option.map] at h
        cases h
        have hr := ih p1 _ hrec
        simp only [List.cons_append]
        rw [hr]

/-- A successful `**FINAL ANSWER**:` extraction implies the outer
`"FINAL ANSWER" in content` check passes. -/
theorem containsFA_of_extract (content a : Str)
    (h : extractFinalAnswer content = some a) :
    containsSubstr (str "FINAL ANSWER") content = true := by
  unfold extractFinalAnswer at h
  cases hs : splitOnFirst (str "**FINAL ANSWER**:") content with
  | none => rw [hs] at h; simp at h
  | some p =>
    obtain ⟨pre, post⟩ := p
    have hparts := splitOnFirst_parts (str "**FINAL ANSWER**:") content pre post hs
    unfold containsSubstr
    rw [hparts]
    rw [show pre ++ str "**FINAL ANSWER**:" ++ post
        = (pre ++ str "**") ++ str "FINAL ANSWER" ++ (str "**:" ++ post) from by
      simp [str]]
    exact splitOnFirst_isSome_of_parts (pre ++ str "**") (str "FINAL ANSWER")
      (str "**:" ++ post)

/-- **C7** (amended): the reasoning node sets `final_answer` (to the
extracted, stripped text) and `reflection_decision = "end"` exactly when the
reasoner output matches the bold/colon pattern `**FINAL ANSWER**:`; an output
containing the plain marker `FINAL ANSWER` in any other formatting leaves
both fields unchanged, because the extraction regex fails even though the
containment check passes. -/
theorem C7_reasoning_marker (content : Str) (s : AgentState) :
    (∀ a, extractFinalAnswer content = some a →
      (reasoning_node (.ok content) s).final_answer = some a ∧
      (reasoning_node (.ok content) s).reflection_decision = some (str "end")) ∧
    (extractFinalAnswer content = none →
      (reasoning_node (.ok content) s).final_answer = s.final_answer ∧
      (reasoning_node (.ok content) s).reflection_decision = s.reflection_decision) := by
  constructor
  · intro a ha
    have hc := containsFA_of_extract content a ha
    unfold reasoning_node
    dsimp only
    rw [if_pos hc, ha]
    exact ⟨rfl, rfl⟩
  · intro hnone
    unfold reasoning_node
    dsimp only
    split
    · rw [hnone]
      exact ⟨rfl, rfl⟩
    · exact ⟨rfl, rfl⟩

/-- Counterexample to C7 as stated: an output containing the final-answer
marker `FINAL ANSWER` without the bold/colon formatting passes the
containment check but fails the extraction regex; `final_answer` stays unset
and the decision stays `"continue"` — the claim's "not only those in a
particular bold/colon formatting" does not hold of the code. -/
theorem C7_counterexample :
    containsSubstr (str "FINAL ANSWER") (str "FINAL ANSWER: xin chao") = true ∧
    extractFinalAnswer (str "FINAL ANSWER: xin chao") = none ∧
    (reasoning_node (.ok (str "FINAL ANSWER: xin chao"))
        (initialState (str "q"))).final_answer = none ∧
    (reasoning_node (.ok (str "FINAL ANSWER: xin chao"))
        (initialState (str "q"))).reflection_decision = some (str "continue") :=
  ⟨rfl, rfl, rfl, rfl⟩

/-- Witness for the amended C7 at concrete reasoner outputs. -/
theorem C7_reasoning_marker_witness :
    (reasoning_node (.ok (str "**FINAL ANSWER**: ok")) (initialState (str "q"))).final_answer
      = some (str "ok") ∧
    (reasoning_node (.ok (str "**FINAL ANSWER**: ok"))
        (initialState (str "q"))).reflection_decision = some (str "end") ∧
    (reasoning_node (.ok (str "hello")) (initialState (str "q"))).final_answer = none :=
  ⟨((C7_reasoning_marker (str "**FINAL ANSWER**: ok") (initialState (str "q"))).1
      (str "ok") rfl).1,
   ((C7_reasoning_marker (str "**FINAL ANSWER**: ok") (initialState (str "q"))).1
      (str "ok") rfl).2,
   by
     rw [((C7_reasoning_marker (str "hello") (initialState (str "q"))).2 rfl).1]
     rfl⟩

/-! ### Claim C6 -/

theorem applyEval_decision (J : PyLib) (s : AgentState) (dec : Str) (r p : Json) :
    (applyEvaluation J s dec r p).reflection_decision = some dec := by
  unfold applyEvaluation
  dsimp only
  split
  · rfl
  · split <;> rfl

theorem evalVerdict_ok_decision (J : PyLib) (ev : Json) (d : Str) (r p : Json)
    (h : evalVerdict J ev = .ok d r p) :
    d = str "continue" ∨ d = str "retry" ∨ d = str "end" := by
  unfold evalVerdict at h
  split at h
  · split at h
    · dsimp only at h
      split at h
      · next hvalid =>
        split at h
        · next ds heq =>
          cases h
          rw [heq] at hvalid
          simp only [Json.eqStr, Bool.or_eq_true, beq_iff_eq] at hvalid
          tauto
        · exact EvalOutcome.noConfusion h
      · exact EvalOutcome.noConfusion h
    · exact EvalOutcome.noConfusion h
  · split at h <;> exact EvalOutcome.noConfusion h
  · split at h <;> exact EvalOutcome.noConfusion h
  · exact EvalOutcome.noConfusion h

theorem reflectionEval_ok_decision (J : PyLib) (content : Str) (d : Str) (r p : Json)
    (h : reflectionEval J content = .ok d r p) :
    d = str "continue" ∨ d = str "retry" ∨ d = str "end" := by
  unfold reflectionEval at h
  split at h
  · exact EvalOutcome.noConfusion h
  · exact evalVerdict_ok_decision J _ d r p h

/-- Every path through the reflection node leaves one of the three valid
decisions in the state. -/
theorem reflection_decision_valid (J : PyLib) (f : PyOutcome Str) (s : AgentState) :
    (reflection_node J f s).reflection_decision = some (str "continue") ∨
    (reflection_node J f s).reflection_decision = some (str "retry") ∨
    (reflection_node J f s).reflection_decision = some (str "end") := by
  unfold reflection_node
  split
  · right; right; rfl
  · split
    · right; right; rfl
    · split
      · next d r p heval =>
        rcases reflectionEval_ok_decision J _ d r p heval with h | h | h
        · left; rw [applyEval_decision, h]
        · right; left; rw [applyEval_decision, h]
        · right; right; rw [applyEval_decision, h]
      · right; right; rw [applyEval_decision]
      · right; right; rfl

/-- **C6** (confirmed): when the reflection collaborator's response fails to
parse (JSON decode failure, a missing required field, or an invalid decision
value), the node sets `reflection_decision = "end"` and records exactly one
new reflection note describing the failure; moreover the node never leaves a
decision outside `{continue, retry, end}` in the state. -/
theorem C6_reflection_fail_safe (J : PyLib) (s : AgentState) (content : Str)
    (hfa : truthy s.final_answer = false)
    (hbad : ∀ d r p, reflectionEval J content ≠ .ok d r p) :
    (reflection_node J (.ok content) s).reflection_decision = some (str "end") ∧
    (∃ note, (reflection_node J (.ok content) s).reflection_notes
        = s.reflection_notes ++ [note]) ∧
    ∀ (f : PyOutcome Str) (t : AgentState),
      (reflection_node J f t).reflection_decision = some (str "continue") ∨
      (reflection_node J f t).reflection_decision = some (str "retry") ∨
      (reflection_node J f t).reflection_decision = some (str "end") := by
  refine ⟨?_, ?_, fun f t => reflection_decision_valid J f t⟩
  · unfold reflection_node
    rw [if_neg (by rw [hfa]; exact Bool.false_ne_true)]
    dsimp only
    cases hev : reflectionEval J content with
    | ok d r p => exact absurd hev (hbad d r p)
    | valueErr m => exact applyEval_decision J s (str "end") _ _
    | typeErr m => rfl
  · unfold reflection_node
    rw [if_neg (by rw [hfa]; exact Bool.false_ne_true)]
    dsimp only
    cases hev : reflectionEval J content with
    | ok d r p => exact absurd hev (hbad d r p)
    | valueErr m =>
      refine ⟨str "LLM Evaluation: "
        ++ (str "Failed to parse LLM evaluation: " ++ m), ?_⟩
      unfold applyEvaluation
      dsimp only
      rfl
    | typeErr m => exact ⟨str "Error during reflection: " ++ m, rfl⟩

/-- Witness for C6: a concrete response that is not valid JSON (the empty
string). -/
theorem C6_reflection_fail_safe_witness :
    (reflection_node cexPyLib (.ok []) (initialState (str "hi"))).reflection_decision
      = some (str "end") ∧
    (∃ note, (reflection_node cexPyLib (.ok []) (initialState (str "hi"))).reflection_notes
        = (initialState (str "hi")).reflection_notes ++ [note]) ∧
    ∀ (f : PyOutcome Str) (t : AgentState),
      (reflection_node cexPyLib f t).reflection_decision = some (str "continue") ∨
      (reflection_node cexPyLib f t).reflection_decision = some (str "retry") ∨
      (reflection_node cexPyLib f t).reflection_decision = some (str "end") :=
  C6_reflection_fail_safe cexPyLib (initialState (str "hi")) [] rfl
    (fun d r p h => by
      rw [show reflectionEval cexPyLib [] = EvalOutcome.valueErr
          (str "Expecting value: line 1 column 1 (char 0)") from rfl] at h
      exact EvalOutcome.noConfusion h)

/-! ### Claim C5 -/

/-- **C5** (amended): `parse_tool_usage` succeeds exactly when the message
has a fenced json block, the block parses to a JSON object containing BOTH
keys `action` and `input` (extra top-level keys are permitted — the source
checks membership, not exact shape), the `action` value resolves to a
non-empty string naming a registered tool (a sequence-valued action is
defensively replaced by its first element), and in that case it returns the
tool name with the `input` payload re-serialized by `json.dumps`; every
other outcome yields `(None, None)`. -/
theorem C5_parse_characterization (J : PyLib) (registered : List Str)
    (message : Str) (n i : Str) :
    parse_tool_usage J registered message = some (n, i) ↔
      ∃ block fields va vi,
        extractJsonBlock message = some block ∧
        J.loads block = .ok (.obj fields) ∧
        List.lookup (str "action") fields = some va ∧
        List.lookup (str "input") fields = some vi ∧
        resolveAction va = some (.str n) ∧
        n ≠ [] ∧ registered.contains n = true ∧
        i = J.dumps vi := by
  unfold parse_tool_usage
  constructor
  · intro h
    cases hx : extractJsonBlock message with
    | none => rw [hx] at h; exact Option.noConfusion h
    | some block =>
      rw [hx] at h
      dsimp only at h
      cases hl : J.loads block with
      | error e => rw [hl] at h; exact Option.noConfusion h
      | ok actionData =>
        rw [hl] at h
        dsimp only at h
        cases actionData with
        | obj fields =>
          dsimp only at h
          split at h
          · next hkeys =>
            simp only [Bool.and_eq_true, Option.isSome_iff_exists] at hkeys
            obtain ⟨⟨va, hva⟩, vi, hvi⟩ := hkeys
            have hga : dictGetD fields (str "action") .null = va := by
              unfold dictGetD; rw [hva]; rfl
            have hgi : dictGetD fields (str "input") .null = vi := by
              unfold dictGetD; rw [hvi]; rfl
            rw [hga] at h
            split at h
            · next tn heq =>
              split at h
              · next hcond =>
                cases h
                simp only [Bool.and_eq_true] at hcond
                refine ⟨block, fields, va, vi, rfl, hl, hva, hvi, heq, ?_,
                  hcond.2, ?_⟩
                · intro hnil
                  rw [hnil] at hcond
                  exact absurd hcond.1 (by decide)
                · rw [hgi]
              · exact Option.noConfusion h
            · exact Option.noConfusion h
          · exact Option.noConfusion h
        | null => dsimp only at h; exact Option.noConfusion h
        | bool b => dsimp only at h; exact Option.noConfusion h
        | num m => dsimp only at h; exact Option.noConfusion h
        | str t => dsimp only at h; exact Option.noConfusion h
        | arr xs => dsimp only at h; exact Option.noConfusion h
  · rintro ⟨block, fields, va, vi, hx, hl, hva, hvi, hres, hne, hreg, hi⟩
    rw [hx]
    dsimp only
    rw [hl]
    dsimp only
    have hkeys : ((List.lookup (str "action") fields).isSome
        && (List.lookup (str "input") fields).isSome) = true := by
      rw [hva, hvi]; rfl
    rw [if_pos hkeys]
    have hga : dictGetD fields (str "action") .null = va := by
      unfold dictGetD; rw [hva]; rfl
    have hgi : dictGetD fields (str "input") .null = vi := by
      unfold dictGetD; rw [hvi]; rfl
    rw [hga, hres]
    dsimp only
    have hcond : (!n.isEmpty && registered.contains n) = true := by
      cases n with
      | nil => exact absurd rfl hne
      | cons c rest =>
        simp only [List.isEmpty, Bool.not_false, Bool.true_and]
        exact hreg
    rw [if_pos hcond, hgi, hi]

def c5msg : Str := str "```json\n" ++ c5block ++ str "\n```"

/-- Counterexample to C5 as stated: the claim requires "an object with
exactly the two top-level fields action and input", but the source only
checks that both keys are present — a block whose object carries a third
top-level key `x` still parses successfully instead of yielding
`(None, None)`.  (`cexLoads` agrees with `json.loads` on this block.) -/
theorem C5_counterexample :
    extractJsonBlock c5msg = some c5block ∧
    cexPyLib.loads c5block = .ok (.obj c5fields) ∧
    c5fields.map Prod.fst = [str "action", str "input", str "x"] ∧
    parse_tool_usage cexPyLib [str "chat_llm"] c5msg
      = some (str "chat_llm", str "\x7b\x7d") :=
  ⟨rfl, rfl, rfl, rfl⟩
